import Mathlib

/-!
Shallow embedding of the wedding-invitation backend (`src/main.py`).

The repository is a FastAPI application with two business endpoints:
`GET /api/comments` (list) and `POST /api/comments` (create), plus a
best-effort forwarder `forward_to_google_sheet`.  The document store
(`database.create_document` / `database.get_documents`) and the comment
domain schema (`schemas.Comment`) are imported from modules that are not
part of the sources; they are modelled from the specification where a
claim depends on them, and otherwise treated as oracles (their outcome is
a parameter of the embedded endpoint).

JSON inputs are modelled by `JsonVal` / `InputRecord` (a field that is
`none` is absent from the request body; `some .jnull` is an explicit
JSON null).  Machine-level coercions of the validation library (e.g.
string-to-int laxness) are not modelled; no claim depends on them.
-/

namespace Wedding

/-- A JSON scalar value, as far as the comment schema is concerned. -/
inductive JsonVal where
  | jstr (s : String)
  | jint (n : Int)
  | jbool (b : Bool)
  | jnull
deriving Repr, DecidableEq

/-- An untyped JSON request body for `POST /api/comments`.
A field that is `none` is absent from the body. -/
structure InputRecord where
  name : Option JsonVal
  message : Option JsonVal
  attending : Option JsonVal
  guests : Option JsonVal
  phone : Option JsonVal
deriving Repr, DecidableEq

/-- The validated comment shape, mirroring the pydantic model
`CommentIn` of `src/main.py` lines 21-26:
`name: str`, `message: str`, `attending: Optional[bool] = None`,
`guests: Optional[int] = 1`, `phone: Optional[str] = None`. -/
structure CommentIn where
  name : String
  message : String
  attending : Option Bool
  guests : Option Int
  phone : Option String
deriving Repr, DecidableEq

/-- The response body shape `CommentOut` (`src/main.py` lines 28-29):
`CommentIn` plus `id: Optional[str] = None`. -/
structure CommentOut where
  id : Option String
  name : String
  message : String
  attending : Option Bool
  guests : Option Int
  phone : Option String
deriving Repr, DecidableEq

/-- pydantic validation of a required `str` field: present string values
pass; a missing field or a non-string value (null included) fails. -/
def pyFieldStr (fieldName : String) (v : Option JsonVal) : Except String String :=
  match v with
  | some (.jstr s) => .ok s
  | some _ => .error (fieldName ++ ": Input should be a valid string")
  | none => .error (fieldName ++ ": Field required")

/-- pydantic validation of `attending: Optional[bool] = None`. -/
def pyFieldOptBool (v : Option JsonVal) : Except String (Option Bool) :=
  match v with
  | none => .ok none
  | some .jnull => .ok none
  | some (.jbool b) => .ok (some b)
  | some _ => .error "attending: Input should be a valid boolean"

/-- pydantic validation of `guests: Optional[int] = 1`: an absent field
defaults to `1`, an explicit null stays null. -/
def pyFieldGuests (v : Option JsonVal) : Except String (Option Int) :=
  match v with
  | none => .ok (some 1)
  | some .jnull => .ok none
  | some (.jint n) => .ok (some n)
  | some _ => .error "guests: Input should be a valid integer"

/-- pydantic validation of `phone: Optional[str] = None`. -/
def pyFieldOptStr (v : Option JsonVal) : Except String (Option String) :=
  match v with
  | none => .ok none
  | some .jnull => .ok none
  | some (.jstr s) => .ok (some s)
  | some _ => .error "phone: Input should be a valid string"

/-- Validation of an untyped body against `CommentIn` (pydantic, run by
FastAPI at the transport boundary), field by field as declared in
`src/main.py` lines 21-26. -/
def CommentIn.validate (r : InputRecord) : Except String CommentIn := do
  let name ← pyFieldStr "name" r.name
  let message ← pyFieldStr "message" r.message
  let attending ← pyFieldOptBool r.attending
  let guests ← pyFieldGuests r.guests
  let phone ← pyFieldOptStr r.phone
  .ok { name, message, attending, guests, phone }

/-- `comment.model_dump()`: every field of the model appears in the
dumped record, optional fields that are unset appear as explicit nulls. -/
def CommentIn.model_dump (c : CommentIn) : InputRecord where
  name := some (.jstr c.name)
  message := some (.jstr c.message)
  attending := match c.attending with | none => some .jnull | some b => some (.jbool b)
  guests := match c.guests with | none => some .jnull | some n => some (.jint n)
  phone := match c.phone with | none => some .jnull | some s => some (.jstr s)

/-- Modelled from the spec: `schemas.Comment` (file `schemas.py`, which is
imported by `src/main.py` but not among the sources).  Spec §4.1: "given
an untyped input record, produce a normalized Comment with `guests`
defaulted to 1 if absent, `attending`/`phone` defaulted to absent, and
reject (fail with a ValidationError) if `name` or `message` is missing or
not a string", accepting the same normalized shape as the transport
schema. -/
def CommentSchema.validate (r : InputRecord) : Except String CommentIn :=
  CommentIn.validate r

/-! ### Spreadsheet forwarder (`forward_to_google_sheet`, lines 94-108) -/

/-- The flat payload forwarded to the spreadsheet webhook
(`src/main.py` lines 118-124): keys name, message, attending, guests,
phone, taken from the validated comment. -/
structure Payload where
  name : String
  message : String
  attending : Option Bool
  guests : Option Int
  phone : Option String
deriving Repr, DecidableEq

/-- The payload built by `create_comment` from the validated comment. -/
def payloadOf (c : CommentIn) : Payload :=
  { name := c.name, message := c.message, attending := c.attending
  , guests := c.guests, phone := c.phone }

/-- The outcome of one `requests.post` call: either an HTTP response
with a status code and body text, or a raised transport exception whose
message is `str(e)`.  Supplied as an oracle to the embedded forwarder. -/
inductive HttpOutcome where
  | response (status : Nat) (text : String)
  | fault (msg : String)
deriving Repr, DecidableEq

/-- A record of one HTTP POST issued by `requests.post(url, json=payload,
timeout=8)`. -/
structure PostCall where
  url : String
  body : Payload
  timeout : Nat
deriving Repr, DecidableEq

/-- The dict returned by `forward_to_google_sheet`: keys that a given
branch does not set are `none`. -/
structure ForwardMeta where
  forwarded : Bool
  status : Option Nat
  response : Option String
  reason : Option String
deriving Repr, DecidableEq

/-- Python string slicing `s[:200]` (by code points). -/
def trunc200 (s : String) : String := String.mk (s.toList.take 200)

/-- `forward_to_google_sheet(payload)` from `src/main.py` lines 94-108,
with the environment variable `GOOGLE_APPS_SCRIPT_URL` (`url`, where
`some ""` is falsy in Python just like an unset variable) and the
outcome of the single `requests.post` call (`http`) as oracles.  Returns
the metadata dict together with the list of HTTP POSTs it issued. -/
def forward_to_google_sheet (url : Option String) (http : HttpOutcome)
    (payload : Payload) : ForwardMeta × List PostCall :=
  match url with
  | none =>
    ({ forwarded := false, status := none, response := none
     , reason := some "No GOOGLE_APPS_SCRIPT_URL configured" }, [])
  | some u =>
    if u = "" then
      ({ forwarded := false, status := none, response := none
       , reason := some "No GOOGLE_APPS_SCRIPT_URL configured" }, [])
    else
      match http with
      | .response status text =>
        ({ forwarded := status = 200 || status = 201, status := some status
         , response := some (trunc200 text), reason := none }
        , [{ url := u, body := payload, timeout := 8 }])
      | .fault msg =>
        ({ forwarded := false, status := none, response := none
         , reason := some (trunc200 msg) }
        , [{ url := u, body := payload, timeout := 8 }])

/-! ### `POST /api/comments` (`create_comment`, lines 110-128) -/

/-- An HTTP response of the create endpoint: either 200 with the created
`CommentOut` body, or an error status with a detail string (422 when
FastAPI transport validation fails, 400 from the handler's
`HTTPException`). -/
inductive PostResponse where
  | success (body : CommentOut)
  | error (status : Nat) (detail : String)
deriving Repr, DecidableEq

/-- The oracles of one `POST /api/comments` request: the outcome of the
`create_document` store call if it is invoked (`.error` = the store call
raises), the forwarder's URL environment variable, and the outcome of
the forwarder's `requests.post` call if it is issued. -/
structure CreateEnv where
  createResult : Except String String
  url : Option String
  http : HttpOutcome

/-- What one `POST /api/comments` request did: the HTTP response, the
arguments of the `create_document` invocations, the payloads the
forwarder was invoked with, and the HTTP POSTs the forwarder issued. -/
structure CreateTrace where
  response : PostResponse
  createCalls : List CommentIn
  forwardCalls : List Payload
  posts : List PostCall
deriving Repr, DecidableEq

/-- The handler body of `create_comment` (`src/main.py` lines 111-128),
run on an already transport-validated `CommentIn`: re-validate through
`schemas.Comment`, persist via `create_document` (its outcome is the
oracle `env.createResult`), best-effort forward, return the created
comment; any exception up to that point becomes `HTTPException(400,
str(e))`. -/
def create_comment (env : CreateEnv) (comment : CommentIn) : CreateTrace :=
  match CommentSchema.validate comment.model_dump with
  | .error e =>
    { response := .error 400 e, createCalls := [], forwardCalls := [], posts := [] }
  | .ok validated =>
    match env.createResult with
    | .error e =>
      { response := .error 400 e, createCalls := [validated]
      , forwardCalls := [], posts := [] }
    | .ok new_id =>
      let fwd := forward_to_google_sheet env.url env.http (payloadOf validated)
      { response := .success
          { id := some new_id, name := validated.name
          , message := validated.message, attending := validated.attending
          , guests := validated.guests, phone := validated.phone }
      , createCalls := [validated]
      , forwardCalls := [payloadOf validated]
      , posts := fwd.2 }

/-- The full `POST /api/comments` endpoint: FastAPI first validates the
JSON body against `CommentIn`; a failure is a 422 response and the
handler never runs.  Otherwise the handler `create_comment` runs. -/
def post_comments (env : CreateEnv) (input : InputRecord) : CreateTrace :=
  match CommentIn.validate input with
  | .error e =>
    { response := .error 422 e, createCalls := [], forwardCalls := [], posts := [] }
  | .ok comment => create_comment env comment

/-! ### Document store (modelled from the spec) -/

/-- An opaque, injective string tag for the `n`-th store-assigned id. -/
def natTag (n : Nat) : String := String.mk (List.replicate (n + 1) 'x')

/-- Modelled from the spec: the Document Store Adapter (`database.py`,
imported by `src/main.py` but not among the sources).  Spec §2/§6:
`create_document(collection, record) -> id` where `id` is an "opaque
string identifier, assigned by the store on creation"; §3: "Insertion
order is preserved by the store".  Only the `"comment"` collection is
ever used, so the state is its ordered list of `(id, record)` documents
plus a counter from which fresh ids are drawn. -/
structure Store where
  docs : List (String × CommentIn)
  counter : Nat
deriving Repr, DecidableEq

/-- The id the store will assign to the next created document. -/
def Store.freshId (st : Store) : String := natTag st.counter

/-- Modelled from the spec: `database.create_document(collection, record)
-> id` — append the record with a fresh id, preserving insertion order. -/
def create_document (st : Store) (record : CommentIn) : String × Store :=
  (st.freshId, { docs := st.docs ++ [(st.freshId, record)], counter := st.counter + 1 })

/-- `POST /api/comments` run against the spec-modelled store: the
`create_document` oracle outcome is the id the store assigns, and the
store state advances by the documents the handler created. -/
def post_comments_db (st : Store) (url : Option String) (http : HttpOutcome)
    (input : InputRecord) : CreateTrace × Store :=
  let tr := post_comments { createResult := .ok st.freshId, url := url, http := http } input
  (tr, tr.createCalls.foldl (fun s c => (create_document s c).2) st)

/-! ### `GET /api/comments` (`list_comments`, lines 75-91) -/

/-- A record of the `"comment"` collection as the list endpoint reads it
back: the stored `_id` (absent keys are possible in principle, and
`str()` of a missing key's `None` is `"None"`), and the five comment
fields, each possibly missing. -/
structure StoredDoc where
  oid : Option String
  name : Option String
  message : Option String
  attending : Option Bool
  guests : Option Int
  phone : Option String
deriving Repr, DecidableEq

/-- Python `str()` applied to an optional string: `str(None) = "None"`. -/
def pyStr : Option String → String
  | none => "None"
  | some s => s

/-- The per-document mapping of `src/main.py` lines 81-88:
`CommentOut(id=str(d.get("_id")), name=d.get("name", ""),
message=d.get("message", ""), attending=d.get("attending"),
guests=d.get("guests"), phone=d.get("phone"))`. -/
def docToCommentOut (d : StoredDoc) : CommentOut :=
  { id := some (pyStr d.oid)
  , name := d.name.getD ""
  , message := d.message.getD ""
  , attending := d.attending
  , guests := d.guests
  , phone := d.phone }

/-- The arguments of one `get_documents` store call. -/
structure GetCall where
  collection : String
  filter : List (String × JsonVal)
  limit : Int
deriving Repr, DecidableEq

/-- An HTTP response of the list endpoint. -/
inductive ListResponse where
  | success (body : List CommentOut)
  | error (status : Nat) (detail : String)
deriving Repr, DecidableEq

/-- `list_comments(limit)` from `src/main.py` lines 75-91, with the
outcome of `get_documents("comment", {}, limit)` as an oracle (`.error`
= the store call raises): on success, map the documents in store order;
on any exception, `HTTPException(500, str(e))`.  Also returns the
`get_documents` call it issued. -/
def list_comments (store : Except String (List StoredDoc)) (limit : Int) :
    ListResponse × GetCall :=
  let call : GetCall := { collection := "comment", filter := [], limit := limit }
  match store with
  | .ok docs => (.success (docs.map docToCommentOut), call)
  | .error e => (.error 500 e, call)

/-- `GET /api/comments` with the `limit` query parameter absent: the
declaration `limit: int = 50` defaults it to 50. -/
def list_comments_default (store : Except String (List StoredDoc)) :
    ListResponse × GetCall :=
  list_comments store 50

/-! ### Basic lemmas -/

theorem bindE_ok {α β : Type} (x : Except String α) (f : α → Except String β) (b : β) :
    (x >>= f) = .ok b ↔ ∃ a, x = .ok a ∧ f a = .ok b := by
  cases x <;> simp [Bind.bind, Except.bind]

theorem bindE_okl {α β : Type} (a : α) (f : α → Except String β) :
    ((Except.ok a : Except String α) >>= f) = f a := rfl

theorem bindE_err {α β : Type} (e : String) (f : α → Except String β) :
    ((Except.error e : Except String α) >>= f) = .error e := rfl

theorem pyFieldStr_ok (fieldName : String) (v : Option JsonVal) (s : String) :
    pyFieldStr fieldName v = .ok s ↔ v = some (.jstr s) := by
  cases v with
  | none => simp [pyFieldStr]
  | some j => cases j <;> simp [pyFieldStr]

theorem validate_ok_iff (r : InputRecord) (c : CommentIn) :
    CommentIn.validate r = .ok c ↔
      pyFieldStr "name" r.name = .ok c.name ∧
      pyFieldStr "message" r.message = .ok c.message ∧
      pyFieldOptBool r.attending = .ok c.attending ∧
      pyFieldGuests r.guests = .ok c.guests ∧
      pyFieldOptStr r.phone = .ok c.phone := by
  unfold CommentIn.validate
  constructor
  · intro h
    rw [bindE_ok] at h; obtain ⟨n, hn, h⟩ := h
    rw [bindE_ok] at h; obtain ⟨m, hm, h⟩ := h
    rw [bindE_ok] at h; obtain ⟨a, ha, h⟩ := h
    rw [bindE_ok] at h; obtain ⟨g, hg, h⟩ := h
    rw [bindE_ok] at h; obtain ⟨p, hp, h⟩ := h
    injection h with h
    subst h
    exact ⟨hn, hm, ha, hg, hp⟩
  · rintro ⟨hn, hm, ha, hg, hp⟩
    rw [hn, bindE_okl, hm, bindE_okl, ha, bindE_okl, hg, bindE_okl, hp, bindE_okl]

theorem schema_validate_dump (c : CommentIn) :
    CommentSchema.validate c.model_dump = .ok c := by
  cases c with
  | mk name message attending guests phone =>
    cases attending <;> cases guests <;> cases phone <;> rfl

theorem natTag_ne_empty (n : Nat) : natTag n ≠ "" := by
  intro h
  have h2 := congrArg (fun s => s.data.length) h
  simp [natTag] at h2

theorem natTag_injective : Function.Injective natTag := by
  intro a b h
  have h2 := congrArg (fun s => s.data.length) h
  simpa [natTag] using h2

theorem post_comments_ok (env : CreateEnv) (input : InputRecord) (c : CommentIn)
    (id : String) (hval : CommentIn.validate input = .ok c)
    (hid : env.createResult = .ok id) :
    post_comments env input =
      { response := .success
          { id := some id, name := c.name, message := c.message,
            attending := c.attending, guests := c.guests, phone := c.phone },
        createCalls := [c], forwardCalls := [payloadOf c],
        posts := (forward_to_google_sheet env.url env.http (payloadOf c)).2 } := by
  simp [post_comments, hval, create_comment, schema_validate_dump, hid]

theorem validate_error_of_missing (r : InputRecord)
    (h : (∀ s, r.name ≠ some (.jstr s)) ∨ (∀ s, r.message ≠ some (.jstr s))) :
    ∃ e, CommentIn.validate r = .error e := by
  unfold CommentIn.validate
  cases hname : pyFieldStr "name" r.name with
  | error e => exact ⟨e, rfl⟩
  | ok s =>
    have hn : r.name = some (.jstr s) := (pyFieldStr_ok _ _ _).1 hname
    cases h with
    | inl hbad => exact absurd hn (hbad s)
    | inr hbad =>
      cases hmsg : pyFieldStr "message" r.message with
      | error e => exact ⟨e, rfl⟩
      | ok t => exact absurd ((pyFieldStr_ok _ _ _).1 hmsg) (hbad t)

theorem trunc200_le (s : String) : (trunc200 s).length ≤ 200 := by
  have h : (trunc200 s).length = (s.toList.take 200).length := rfl
  rw [h, List.length_take]
  exact Nat.min_le_left _ _

theorem post_comments_db_ok (st : Store) (url : Option String) (http : HttpOutcome)
    (input : InputRecord) (c : CommentIn) (hval : CommentIn.validate input = .ok c) :
    (post_comments_db st url http input).1.response = .success
      { id := some st.freshId, name := c.name, message := c.message,
        attending := c.attending, guests := c.guests, phone := c.phone } ∧
    (post_comments_db st url http input).2 =
      { docs := st.docs ++ [(st.freshId, c)], counter := st.counter + 1 } := by
  have hpc := post_comments_ok
    { createResult := .ok st.freshId, url := url, http := http } input c st.freshId hval rfl
  constructor
  · show (post_comments
      { createResult := .ok st.freshId, url := url, http := http } input).response = _
    rw [hpc]
  · show ((post_comments
        { createResult := .ok st.freshId, url := url, http := http } input).createCalls.foldl
        (fun s c => (create_document s c).2) st) = _
    rw [hpc]
    rfl

/-! ### Claim theorems -/

/-- C1: for every valid Comment input (name and message present as
non-empty strings), `POST /api/comments` returns success with a
non-empty `id`, echoing the submitted name, message, attending, guests
and phone: `guests = 1` when omitted from the input, `attending` and
`phone` absent when omitted. -/
theorem c1_create_valid_success (st : Store) (url : Option String) (http : HttpOutcome)
    (input : InputRecord) (c : CommentIn)
    (hval : CommentIn.validate input = .ok c)
    (hname : c.name ≠ "") (hmsg : c.message ≠ "") :
    ∃ id : String,
      id ≠ "" ∧
      (post_comments_db st url http input).1.response = .success
        { id := some id, name := c.name, message := c.message,
          attending := c.attending, guests := c.guests, phone := c.phone } ∧
      (input.guests = none → c.guests = some 1) ∧
      (input.attending = none → c.attending = none) ∧
      (input.phone = none → c.phone = none) := by
  have hfields := (validate_ok_iff input c).1 hval
  refine ⟨st.freshId, natTag_ne_empty _, (post_comments_db_ok st url http input c hval).1,
    ?_, ?_, ?_⟩
  · intro hg
    have h2 := hfields.2.2.2.1
    rw [hg] at h2
    exact (Except.ok.inj h2).symm
  · intro ha
    have h2 := hfields.2.2.1
    rw [ha] at h2
    exact (Except.ok.inj h2).symm
  · intro hp
    have h2 := hfields.2.2.2.2
    rw [hp] at h2
    exact (Except.ok.inj h2).symm

/-- Instantiation of `c1_create_valid_success` at the spec's concrete
scenario (Alice, attending with 2 guests, phone omitted). -/
theorem c1_create_valid_success_witness :
    CommentIn.validate
        { name := some (.jstr "Alice"), message := some (.jstr "See you there!"),
          attending := some (.jbool true), guests := some (.jint 2), phone := none } =
      .ok { name := "Alice", message := "See you there!", attending := some true,
            guests := some 2, phone := none } ∧
    ("Alice" : String) ≠ "" ∧ ("See you there!" : String) ≠ "" ∧
    ∃ id : String,
      id ≠ "" ∧
      (post_comments_db { docs := [], counter := 0 } none (.response 200 "ok")
          { name := some (.jstr "Alice"), message := some (.jstr "See you there!"),
            attending := some (.jbool true), guests := some (.jint 2),
            phone := none }).1.response = .success
        { id := some id, name := "Alice", message := "See you there!",
          attending := some true, guests := some 2, phone := none } ∧
      (({ name := some (.jstr "Alice"), message := some (.jstr "See you there!"),
          attending := some (.jbool true), guests := some (.jint 2),
          phone := none } : InputRecord).guests = none → (some 2 : Option Int) = some 1) ∧
      (({ name := some (.jstr "Alice"), message := some (.jstr "See you there!"),
          attending := some (.jbool true), guests := some (.jint 2),
          phone := none } : InputRecord).attending = none → (some true : Option Bool) = none) ∧
      (({ name := some (.jstr "Alice"), message := some (.jstr "See you there!"),
          attending := some (.jbool true), guests := some (.jint 2),
          phone := none } : InputRecord).phone = none → (none : Option String) = none) :=
  ⟨rfl, by decide, by decide,
    c1_create_valid_success { docs := [], counter := 0 } none (.response 200 "ok")
      { name := some (.jstr "Alice"), message := some (.jstr "See you there!"),
        attending := some (.jbool true), guests := some (.jint 2), phone := none }
      { name := "Alice", message := "See you there!", attending := some true,
        guests := some 2, phone := none }
      rfl (by decide) (by decide)⟩

/-- C2: when persistence succeeds, the forwarding outcome (any URL
configuration, any HTTP outcome) has no effect on the response of
`POST /api/comments`: the endpoint returns the created Comment with its
id, a success. -/
theorem c2_forward_never_affects_response (input : InputRecord) (c : CommentIn)
    (id : String) (url url2 : Option String) (http http2 : HttpOutcome)
    (hval : CommentIn.validate input = .ok c) :
    (post_comments { createResult := .ok id, url := url, http := http } input).response =
      .success { id := some id, name := c.name, message := c.message,
                 attending := c.attending, guests := c.guests, phone := c.phone } ∧
    (post_comments { createResult := .ok id, url := url, http := http } input).response =
      (post_comments { createResult := .ok id, url := url2, http := http2 } input).response := by
  constructor
  · rw [post_comments_ok _ input c id hval rfl]
  · rw [post_comments_ok _ input c id hval rfl, post_comments_ok _ input c id hval rfl]

/-- Instantiation of `c2_forward_never_affects_response`: a skipped
forward (no URL) and a failed forward (timeout) give the same response. -/
theorem c2_forward_never_affects_response_witness :
    CommentIn.validate
        { name := some (.jstr "Bob"), message := some (.jstr "hi"),
          attending := none, guests := none, phone := none } =
      .ok { name := "Bob", message := "hi", attending := none,
            guests := some 1, phone := none } ∧
    ((post_comments { createResult := .ok "id7", url := none, http := .fault "timeout" }
        { name := some (.jstr "Bob"), message := some (.jstr "hi"),
          attending := none, guests := none, phone := none }).response =
      .success { id := some "id7", name := "Bob", message := "hi",
                 attending := none, guests := some 1, phone := none } ∧
    (post_comments { createResult := .ok "id7", url := none, http := .fault "timeout" }
        { name := some (.jstr "Bob"), message := some (.jstr "hi"),
          attending := none, guests := none, phone := none }).response =
      (post_comments
        { createResult := .ok "id7", url := some "https://w.example", http := .fault "timeout" }
        { name := some (.jstr "Bob"), message := some (.jstr "hi"),
          attending := none, guests := none, phone := none }).response) :=
  ⟨rfl, c2_forward_never_affects_response
    { name := some (.jstr "Bob"), message := some (.jstr "hi"),
      attending := none, guests := none, phone := none }
    { name := "Bob", message := "hi", attending := none, guests := some 1, phone := none }
    "id7" none (some "https://w.example") (.fault "timeout") (.fault "timeout") rfl⟩

/-- C3: for any input whose name or message is missing or not a string,
`POST /api/comments` answers with a client-fault (4xx) status and the
store's create operation is never invoked. -/
theorem c3_missing_required_rejected (env : CreateEnv) (input : InputRecord)
    (h : (∀ s, input.name ≠ some (.jstr s)) ∨ (∀ s, input.message ≠ some (.jstr s))) :
    (∃ status detail, (post_comments env input).response = .error status detail ∧
      400 ≤ status ∧ status < 500) ∧
    (post_comments env input).createCalls = [] := by
  obtain ⟨e, he⟩ := validate_error_of_missing input h
  refine ⟨⟨422, e, ?_, by norm_num, by norm_num⟩, ?_⟩ <;> simp [post_comments, he]

/-- Instantiation of `c3_missing_required_rejected` at the spec's
concrete scenario: a body carrying only a message. -/
theorem c3_missing_required_rejected_witness :
    ((∀ s, ({ name := none, message := some (.jstr "no name"), attending := none,
              guests := none, phone := none } : InputRecord).name ≠ some (.jstr s)) ∨
      (∀ s, ({ name := none, message := some (.jstr "no name"), attending := none,
               guests := none, phone := none } : InputRecord).message ≠ some (.jstr s))) ∧
    ((∃ status detail,
      (post_comments { createResult := .ok "id1", url := none, http := .fault "x" }
        { name := none, message := some (.jstr "no name"), attending := none,
          guests := none, phone := none }).response = .error status detail ∧
      400 ≤ status ∧ status < 500) ∧
    (post_comments { createResult := .ok "id1", url := none, http := .fault "x" }
        { name := none, message := some (.jstr "no name"), attending := none,
          guests := none, phone := none }).createCalls = []) :=
  ⟨Or.inl (fun s => by simp), c3_missing_required_rejected
    { createResult := .ok "id1", url := none, http := .fault "x" }
    { name := none, message := some (.jstr "no name"), attending := none,
      guests := none, phone := none }
    (Or.inl (fun s => by simp))⟩

/-- C4: with a URL configured, the forwarder issues exactly one HTTP
POST carrying the payload with timeout 8 and never propagates a fault:
a 200/201 response yields a success record with the status code and the
response body truncated to at most 200 characters, any other status
yields a failure record, and a transport fault yields a failure record
with the reason truncated to at most 200 characters. -/
theorem c4_forwarder_contract (u : String) (http : HttpOutcome) (payload : Payload)
    (hu : u ≠ "") :
    (forward_to_google_sheet (some u) http payload).2 =
      [{ url := u, body := payload, timeout := 8 }] ∧
    (∀ status text, http = .response status text →
      (forward_to_google_sheet (some u) http payload).1 =
        { forwarded := status = 200 || status = 201, status := some status,
          response := some (trunc200 text), reason := none } ∧
      (trunc200 text).length ≤ 200) ∧
    (∀ msg, http = .fault msg →
      (forward_to_google_sheet (some u) http payload).1 =
        { forwarded := false, status := none, response := none,
          reason := some (trunc200 msg) } ∧
      (trunc200 msg).length ≤ 200) := by
  refine ⟨?_, ?_, ?_⟩
  · cases http <;> simp [forward_to_google_sheet, hu]
  · rintro status text rfl
    exact ⟨by simp [forward_to_google_sheet, hu], trunc200_le text⟩
  · rintro msg rfl
    exact ⟨by simp [forward_to_google_sheet, hu], trunc200_le msg⟩

/-- Instantiation of `c4_forwarder_contract` at a non-2xx response. -/
theorem c4_forwarder_contract_witness :
    ("https://script.example/run" : String) ≠ "" ∧
    ((forward_to_google_sheet (some "https://script.example/run") (.response 500 "boom")
        { name := "A", message := "m", attending := none, guests := some 1,
          phone := none }).2 =
      [{ url := "https://script.example/run",
         body := { name := "A", message := "m", attending := none, guests := some 1,
                   phone := none },
         timeout := 8 }] ∧
    (∀ status text, (.response 500 "boom" : HttpOutcome) = .response status text →
      (forward_to_google_sheet (some "https://script.example/run") (.response 500 "boom")
        { name := "A", message := "m", attending := none, guests := some 1,
          phone := none }).1 =
        { forwarded := status = 200 || status = 201, status := some status,
          response := some (trunc200 text), reason := none } ∧
      (trunc200 text).length ≤ 200) ∧
    (∀ msg, (.response 500 "boom" : HttpOutcome) = .fault msg →
      (forward_to_google_sheet (some "https://script.example/run") (.response 500 "boom")
        { name := "A", message := "m", attending := none, guests := some 1,
          phone := none }).1 =
        { forwarded := false, status := none, response := none,
          reason := some (trunc200 msg) } ∧
      (trunc200 msg).length ≤ 200)) :=
  ⟨by decide, c4_forwarder_contract "https://script.example/run" (.response 500 "boom")
    { name := "A", message := "m", attending := none, guests := some 1, phone := none }
    (by decide)⟩

/-- C5: with no webhook URL configured (unset or empty, both falsy in
Python), the forwarder returns the not-forwarded/no-URL record and
issues no HTTP POST. -/
theorem c5_no_url_skips (url : Option String) (http : HttpOutcome) (payload : Payload)
    (h : url = none ∨ url = some "") :
    forward_to_google_sheet url http payload =
      ({ forwarded := false, status := none, response := none,
         reason := some "No GOOGLE_APPS_SCRIPT_URL configured" }, []) := by
  rcases h with h | h <;> subst h <;> rfl

/-- Instantiation of `c5_no_url_skips` with the variable unset. -/
theorem c5_no_url_skips_witness :
    ((none : Option String) = none ∨ (none : Option String) = some "") ∧
    forward_to_google_sheet none (.response 200 "ok")
        { name := "A", message := "m", attending := none, guests := some 1,
          phone := none } =
      ({ forwarded := false, status := none, response := none,
         reason := some "No GOOGLE_APPS_SCRIPT_URL configured" }, []) :=
  ⟨Or.inl rfl, c5_no_url_skips none (.response 200 "ok")
    { name := "A", message := "m", attending := none, guests := some 1, phone := none }
    (Or.inl rfl)⟩

/-- C6: a store fault on the read path is a 500 with the error text as
detail, while a store fault on the write path is caught by the handler's
broad `except` and becomes a 400 with the error text as detail. -/
theorem c6_store_fault_statuses :
    (∀ (e : String) (limit : Int), (list_comments (.error e) limit).1 = .error 500 e) ∧
    (∀ (env : CreateEnv) (input : InputRecord) (c : CommentIn) (e : String),
      CommentIn.validate input = .ok c → env.createResult = .error e →
      (post_comments env input).response = .error 400 e) := by
  constructor
  · intro e limit
    rfl
  · intro env input c e hval he
    simp [post_comments, hval, create_comment, schema_validate_dump, he]

/-- Instantiation of `c6_store_fault_statuses` on both paths with a
concrete store error. -/
theorem c6_store_fault_statuses_witness :
    (list_comments (.error "connection reset") 50).1 = .error 500 "connection reset" ∧
    CommentIn.validate
        { name := some (.jstr "Bob"), message := some (.jstr "hi"),
          attending := none, guests := none, phone := none } =
      .ok { name := "Bob", message := "hi", attending := none,
            guests := some 1, phone := none } ∧
    (post_comments { createResult := .error "write refused", url := none, http := .fault "x" }
        { name := some (.jstr "Bob"), message := some (.jstr "hi"),
          attending := none, guests := none, phone := none }).response =
      .error 400 "write refused" :=
  ⟨c6_store_fault_statuses.1 "connection reset" 50, rfl,
    c6_store_fault_statuses.2
      { createResult := .error "write refused", url := none, http := .fault "x" }
      { name := some (.jstr "Bob"), message := some (.jstr "hi"),
        attending := none, guests := none, phone := none }
      { name := "Bob", message := "hi", attending := none, guests := some 1, phone := none }
      "write refused" rfl rfl⟩

/-- C7: with the query parameter absent, `GET /api/comments` uses limit
50, issues one `get_documents` call on the "comment" collection with an
empty filter, and answers with the stored documents in store order, each
mapped so that `id` is the stringified stored `_id`, a missing name or
message becomes the empty string, and missing attending/guests/phone
stay absent. -/
theorem c7_list_defaults_and_mapping (store : Except String (List StoredDoc))
    (docs : List StoredDoc) (h : store = .ok docs) :
    (list_comments_default store).2 =
      { collection := "comment", filter := [], limit := 50 } ∧
    (list_comments_default store).1 = .success (docs.map docToCommentOut) ∧
    (∀ d : StoredDoc, (docToCommentOut d).id = some (pyStr d.oid)) ∧
    (∀ d : StoredDoc, d.name = none → (docToCommentOut d).name = "") ∧
    (∀ d : StoredDoc, d.message = none → (docToCommentOut d).message = "") ∧
    (∀ d : StoredDoc, (docToCommentOut d).attending = d.attending ∧
      (docToCommentOut d).guests = d.guests ∧ (docToCommentOut d).phone = d.phone) := by
  subst h
  refine ⟨rfl, rfl, fun d => rfl, fun d hd => ?_, fun d hd => ?_, fun d => ⟨rfl, rfl, rfl⟩⟩
  · simp [docToCommentOut, hd]
  · simp [docToCommentOut, hd]

/-- Instantiation of `c7_list_defaults_and_mapping` on a store holding
one complete and one empty document. -/
theorem c7_list_defaults_and_mapping_witness :
    (Except.ok [
      ({ oid := some "64b", name := some "Alice", message := some "See you there!",
         attending := some true, guests := some 2, phone := some "+33" } : StoredDoc),
      ({ oid := none, name := none, message := none, attending := none,
         guests := none, phone := none } : StoredDoc)] =
      Except.ok (ε := String) [
      ({ oid := some "64b", name := some "Alice", message := some "See you there!",
         attending := some true, guests := some 2, phone := some "+33" } : StoredDoc),
      ({ oid := none, name := none, message := none, attending := none,
         guests := none, phone := none } : StoredDoc)]) ∧
    (list_comments_default (.ok [
      { oid := some "64b", name := some "Alice", message := some "See you there!",
        attending := some true, guests := some 2, phone := some "+33" },
      { oid := none, name := none, message := none, attending := none,
        guests := none, phone := none }])).2 =
      { collection := "comment", filter := [], limit := 50 } ∧
    (list_comments_default (.ok [
      { oid := some "64b", name := some "Alice", message := some "See you there!",
        attending := some true, guests := some 2, phone := some "+33" },
      { oid := none, name := none, message := none, attending := none,
        guests := none, phone := none }])).1 = .success [
      { id := some "64b", name := "Alice", message := "See you there!",
        attending := some true, guests := some 2, phone := some "+33" },
      { id := some "None", name := "", message := "", attending := none,
        guests := none, phone := none }] := by
  have h := c7_list_defaults_and_mapping (.ok [
    { oid := some "64b", name := some "Alice", message := some "See you there!",
      attending := some true, guests := some 2, phone := some "+33" },
    { oid := none, name := none, message := none, attending := none,
      guests := none, phone := none }]) _ rfl
  exact ⟨rfl, h.1, by rw [h.2.1]; rfl⟩

/-- C8: submitting the identical valid payload twice creates two
documents with two distinct ids and no deduplication: both submissions
succeed and the store ends with both records appended. -/
theorem c8_no_deduplication (st : Store) (url : Option String) (http : HttpOutcome)
    (input : InputRecord) (c : CommentIn)
    (hval : CommentIn.validate input = .ok c) :
    ∃ id1 id2 : String,
      id1 ≠ id2 ∧
      (post_comments_db st url http input).1.response = .success
        { id := some id1, name := c.name, message := c.message,
          attending := c.attending, guests := c.guests, phone := c.phone } ∧
      (post_comments_db (post_comments_db st url http input).2 url http input).1.response =
        .success
        { id := some id2, name := c.name, message := c.message,
          attending := c.attending, guests := c.guests, phone := c.phone } ∧
      (post_comments_db (post_comments_db st url http input).2 url http input).2.docs =
        st.docs ++ [(id1, c), (id2, c)] := by
  obtain ⟨h1resp, h1st⟩ := post_comments_db_ok st url http input c hval
  obtain ⟨h2resp, h2st⟩ :=
    post_comments_db_ok (post_comments_db st url http input).2 url http input c hval
  refine ⟨st.freshId, (post_comments_db st url http input).2.freshId, ?_, h1resp, h2resp, ?_⟩
  · rw [h1st]
    show natTag st.counter ≠ natTag (st.counter + 1)
    intro heq
    have h3 := natTag_injective heq
    omega
  · rw [h2st, h1st]
    simp [Store.freshId, h1st]

/-- Instantiation of `c8_no_deduplication`: the same payload posted
twice against an empty store. -/
theorem c8_no_deduplication_witness :
    CommentIn.validate
        { name := some (.jstr "Bob"), message := some (.jstr "hi"),
          attending := none, guests := none, phone := none } =
      .ok { name := "Bob", message := "hi", attending := none,
            guests := some 1, phone := none } ∧
    ∃ id1 id2 : String,
      id1 ≠ id2 ∧
      (post_comments_db { docs := [], counter := 0 } none (.fault "t")
          { name := some (.jstr "Bob"), message := some (.jstr "hi"),
            attending := none, guests := none, phone := none }).1.response = .success
        { id := some id1, name := "Bob", message := "hi",
          attending := none, guests := some 1, phone := none } ∧
      (post_comments_db
          (post_comments_db { docs := [], counter := 0 } none (.fault "t")
            { name := some (.jstr "Bob"), message := some (.jstr "hi"),
              attending := none, guests := none, phone := none }).2 none (.fault "t")
          { name := some (.jstr "Bob"), message := some (.jstr "hi"),
            attending := none, guests := none, phone := none }).1.response = .success
        { id := some id2, name := "Bob", message := "hi",
          attending := none, guests := some 1, phone := none } ∧
      (post_comments_db
          (post_comments_db { docs := [], counter := 0 } none (.fault "t")
            { name := some (.jstr "Bob"), message := some (.jstr "hi"),
              attending := none, guests := none, phone := none }).2 none (.fault "t")
          { name := some (.jstr "Bob"), message := some (.jstr "hi"),
            attending := none, guests := none, phone := none }).2.docs =
        ({ docs := [], counter := 0 } : Store).docs ++
          [(id1, { name := "Bob", message := "hi", attending := none,
                   guests := some 1, phone := none }),
           (id2, { name := "Bob", message := "hi", attending := none,
                   guests := some 1, phone := none })] :=
  ⟨rfl, c8_no_deduplication { docs := [], counter := 0 } none (.fault "t")
    { name := some (.jstr "Bob"), message := some (.jstr "hi"),
      attending := none, guests := none, phone := none }
    { name := "Bob", message := "hi", attending := none, guests := some 1, phone := none }
    rfl⟩

/-- C9: emptiness of name/message is never checked: any present string
values pass validation, and the concrete all-empty submission is
persisted and answered with success, `guests` defaulting to 1. -/
theorem c9_empty_strings_accepted :
    (∀ s t : String,
      CommentIn.validate
        { name := some (.jstr s), message := some (.jstr t),
          attending := none, guests := none, phone := none } =
        .ok { name := s, message := t, attending := none, guests := some 1,
              phone := none }) ∧
    (post_comments_db { docs := [], counter := 0 } none (.fault "t")
        { name := some (.jstr ""), message := some (.jstr ""),
          attending := none, guests := none, phone := none }).1.response =
      .success { id := some (natTag 0), name := "", message := "",
                 attending := none, guests := some 1, phone := none } ∧
    (post_comments_db { docs := [], counter := 0 } none (.fault "t")
        { name := some (.jstr ""), message := some (.jstr ""),
          attending := none, guests := none, phone := none }).2.docs =
      [(natTag 0, { name := "", message := "", attending := none, guests := some 1,
                    phone := none })] :=
  ⟨fun s t => rfl, rfl, rfl⟩

/-- C10: when the store's create operation raises, the forwarder is
never invoked and no HTTP POST is issued: nothing is forwarded unless
persistence completed. -/
theorem c10_no_forward_without_persistence (env : CreateEnv) (input : InputRecord)
    (e : String) (he : env.createResult = .error e) :
    (post_comments env input).forwardCalls = [] ∧
    (post_comments env input).posts = [] := by
  cases hval : CommentIn.validate input with
  | error msg => constructor <;> simp [post_comments, hval]
  | ok c =>
    constructor <;> simp [post_comments, hval, create_comment, schema_validate_dump, he]

/-- Instantiation of `c10_no_forward_without_persistence` with a
concrete failing store write. -/
theorem c10_no_forward_without_persistence_witness :
    (({ createResult := .error "disk full", url := some "https://w.example",
        http := .response 200 "ok" } : CreateEnv).createResult = .error "disk full") ∧
    (post_comments
        { createResult := .error "disk full", url := some "https://w.example",
          http := .response 200 "ok" }
        { name := some (.jstr "Bob"), message := some (.jstr "hi"),
          attending := none, guests := none, phone := none }).forwardCalls = [] ∧
    (post_comments
        { createResult := .error "disk full", url := some "https://w.example",
          http := .response 200 "ok" }
        { name := some (.jstr "Bob"), message := some (.jstr "hi"),
          attending := none, guests := none, phone := none }).posts = [] :=
  ⟨rfl, c10_no_forward_without_persistence
    { createResult := .error "disk full", url := some "https://w.example",
      http := .response 200 "ok" }
    { name := some (.jstr "Bob"), message := some (.jstr "hi"),
      attending := none, guests := none, phone := none }
    "disk full" rfl⟩

end Wedding
